import Mathlib

/-
Shallow embedding of the go-hemera client (src/hemera.go), a request/reply
protocol layer over the NATS publish/subscribe transport, together with
theorems settling the specification claims about it.

Modelling conventions:
* Go dynamic values (the open JSON maps) are the inductive `JVal`; a Go
  `map[string]interface{}` is an association list.
* `interface{}` payloads handed to the reply callback are `Payload`,
  classified by Go dynamic type: an `Error` value, a pointer to `Error`,
  or any other value.  The Go comma-ok type assertion `payload.(Error)`
  succeeds exactly on the first constructor.
* `time.Duration` is an `Int` counting nanoseconds (int64 in Go; no value in
  the claims approaches the 2^63 bound, so wrap-around is irrelevant).
* `encoding/json` is out of scope per the spec (an assumed external codec),
  so wire bytes are modelled as `Bytes`: either a well-formed encoding of a
  packet or malformed data, with `jsonMarshal` / `jsonUnmarshal` the codec.
* `nuid.Next` (the external correlation-id generator) is modelled as a
  counter `g : Nat` with `nuidNext g` the generated string; each generation
  advances the counter.
* Go `log.Fatal` prints and then calls `os.Exit(1)`: control never reaches
  the statements after it.  Operation results are therefore inductives with
  a `fatal` constructor (process termination, carrying the log message) and
  a `ret` constructor (a normal return to the caller).
-/

namespace GoHemera

/-- JSON-compatible dynamic values, the contents of the open maps
(`Pattern`, `meta`, `delegate`) and of opaque payloads. -/
inductive JVal where
  | null
  | bool (b : Bool)
  | num (n : Int)
  | str (s : String)
  | arr (elems : List JVal)
  | obj (fields : List (String × JVal))

/-- Go type `Pattern map[string]interface{}` (src/hemera.go line 47),
modelled as an association list with distinct keys. -/
abbrev Pattern := List (String × JVal)

/-- Go map indexing `p[k]`: `some v` when the key is present. -/
def patternLookup (p : Pattern) (k : String) : Option JVal :=
  match p with
  | [] => none
  | (k2, v) :: rest => if k2 = k then some v else patternLookup rest k

/-- The comma-ok assertion `topic, ok := p["topic"].(string)` used at the
top of both `Add` (line 110) and `Act` (line 150): `some topic` exactly when
the key is present and its dynamic type is `string`. -/
def topicOf (p : Pattern) : Option String :=
  match patternLookup p "topic" with
  | some (JVal.str s) => some s
  | _ => none

/-- Go struct `Error` (src/hemera.go lines 63-67): name, message, code. -/
structure Error where
  name : String
  message : String
  code : Int

/-- Go struct `request` (src/hemera.go lines 55-58). -/
structure Request where
  id : String
  requestType : String

/-- Go struct `trace` (src/hemera.go lines 69-77). -/
structure Trace where
  traceId : String
  parentSpanId : String
  spanId : String
  timestamp : Int
  service : String
  method : String
  duration : Int

/-- An `interface{}` payload handed to the reply callback, classified by its
Go dynamic type: a `hemera.Error` value, a `*hemera.Error` pointer, or any
other JSON-compatible value (maps, numbers, strings, ...). -/
inductive Payload where
  | errVal (e : Error)
  | errPtr (e : Error)
  | val (v : JVal)

/-- Go struct `packet` (src/hemera.go lines 79-87), the wire envelope.
`Result interface{}` has zero value nil, modelled as `Option Payload`;
`Error *Error` is a nilable pointer, modelled as `Option Error`. -/
structure Packet where
  pattern : Pattern
  meta : List (String × JVal)
  delegate : List (String × JVal)
  result : Option Payload
  trace : Trace
  request : Request
  error : Option Error

/-- Zero value of `trace`. -/
def zeroTrace : Trace :=
  { traceId := "", parentSpanId := "", spanId := "", timestamp := 0,
    service := "", method := "", duration := 0 }

/-- Zero value of `request`. -/
def zeroRequest : Request := { id := "", requestType := "" }

/-- Zero value of `packet`, i.e. the Go literal `packet{}`. -/
def zeroPacket : Packet :=
  { pattern := [], meta := [], delegate := [], result := none,
    trace := zeroTrace, request := zeroRequest, error := none }

/-- Wire bytes: either the well-formed JSON encoding of a packet or bytes
that do not decode as a packet.  The JSON codec itself is an external
collaborator (spec section 1), modelled at exactly this granularity. -/
inductive Bytes where
  | enc (p : Packet)
  | malformed (s : String)

/-- Model of `json.Marshal` on a packet (always succeeds; the source
discards its error at lines 138 and 165). -/
def jsonMarshal (p : Packet) : Bytes := Bytes.enc p

/-- Model of `json.Unmarshal` into a `packet`: succeeds exactly on
well-formed encodings. -/
def jsonUnmarshal (b : Bytes) : Except String Packet :=
  match b with
  | Bytes.enc p => Except.ok p
  | Bytes.malformed s => Except.error s

/-- Model of the external generator `nuid.Next()`: the id produced when the
process-wide counter state is `g`. -/
def nuidNext (g : Nat) : String := "nuid-" ++ toString g

/-- An inbound NATS message: subject, transport-provided reply address, and
payload bytes. -/
structure Msg where
  subject : String
  reply : String
  data : Bytes

/-- Transport-level errors returned by `nats.Conn.Request`, notably the
timeout when no reply arrives within the duration. -/
inductive NatsErr where
  | timeout
  | other (s : String)

/-- The request/reply capability of the transport,
`Conn.Request(topic, data, duration) -> (msg, err)`: a function from
subject, bytes and timeout (nanoseconds) to a reply or an error. -/
abbrev Transport := String → Bytes → Int → Except NatsErr Msg

/-- Go `error` values surfaced by this package: `errors.New` sentinels and
wrapped transport errors. -/
inductive GoErr where
  | stdError (msg : String)
  | natsError (e : NatsErr)

/-- Sentinel `ErrAddTopicRequired` (src/hemera.go line 23). -/
def ErrAddTopicRequired : GoErr := GoErr.stdError "Topic is required"

/-- Sentinel `ErrActTopicRequired` (src/hemera.go line 24). -/
def ErrActTopicRequired : GoErr := GoErr.stdError "Topic is required"

/-- Constant `RequestType` (src/hemera.go line 15). -/
def RequestType : String := "request"

/-- Constant `PubsubType` (src/hemera.go line 17). -/
def PubsubType : String := "pubsub"

/-- Constant `RequestTimeout` (src/hemera.go line 19): the default `Act`
timeout, the bare number 2000. -/
def RequestTimeout : Int := 2000

/-- `time.Millisecond` in nanoseconds (the unit of `time.Duration`). -/
def timeMillisecond : Int := 1000000

/-- `time.Second` in nanoseconds. -/
def timeSecond : Int := 1000000000

/-- Go struct `Options` (src/hemera.go lines 37-39); `Timeout` has Go type
`time.Duration` (nanoseconds). -/
structure Options where
  timeout : Int

/-- `GetDefaultOptions` (src/hemera.go lines 27-32). -/
def GetDefaultOptions : Options := { timeout := RequestTimeout }

/-- Go type `Option func(*Options) error` (line 35): mutates the options
and may return an error, modelled by returning the updated options paired
with the optional error. -/
abbrev OptionFn := Options → Options × Option GoErr

/-- `Timeout` option constructor (src/hemera.go lines 101-106). -/
def Timeout (t : Int) : OptionFn := fun o => ({ o with timeout := t }, none)

/-- An opaque connection handle (`*nats.Conn`). -/
structure NatsConn where
  handle : Nat

/-- Go struct `Hemera` (src/hemera.go lines 50-53); `Conn` is a nilable
pointer, left nil on the early-error return of `NewHemera`. -/
structure Hemera where
  conn : Option NatsConn
  opts : Options

/-- The option-application loop inside `NewHemera` (lines 92-96): each
option mutates the options in turn; the first error stops the loop. -/
def applyOptions (opts : Options) (options : List OptionFn) :
    Options × Option GoErr :=
  match options with
  | [] => (opts, none)
  | f :: rest =>
    match f opts with
    | (opts2, some e) => (opts2, some e)
    | (opts2, none) => applyOptions opts2 rest

/-- `NewHemera` (src/hemera.go lines 90-98): applies the options to the
defaults; on an option error returns `Hemera{Opts: opts}` (nil `Conn`)
with that error, otherwise the connected instance. -/
def NewHemera (conn : NatsConn) (options : List OptionFn) :
    Hemera × Option GoErr :=
  match applyOptions GetDefaultOptions options with
  | (opts, some e) => ({ conn := none, opts := opts }, some e)
  | (opts, none) => ({ conn := some conn, opts := opts }, none)

/-- The subscription registered by `Add` (line 117):
`QueueSubscribe(topic, topic, cb)` — subject and queue group are both the
topic.  The message callback itself is modelled by `addOnMessage`. -/
structure Subscription where
  subject : String
  queue : String

/-- Result of an `Add` call: either `log.Fatal` terminated the process
(carrying the log message; the statements after it are unreachable), or a
normal return of `(ok, err)` together with the subscription registered on
the connection (`none` when no subscription was created). -/
inductive AddOutcome where
  | fatal (logMsg : String)
  | ret (ok : Bool) (err : Option GoErr) (sub : Option Subscription)

/-- `Hemera.Add` (src/hemera.go lines 109-145) up to the registration of
the subscription: the topic assertion, then `log.Fatal` on failure
(line 113; the `return false, ErrAddTopicRequired` on line 114 is
unreachable), else `QueueSubscribe(topic, topic, ...)` and
`return true, nil`.  The per-message callback is `addOnMessage`. -/
def Add (p : Pattern) : AddOutcome :=
  match topicOf p with
  | none => AddOutcome.fatal "Topic is required in Add definition"
  | some topic =>
    AddOutcome.ret true none (some { subject := topic, queue := topic })

/-- The decode step of the subscription callback (lines 118-119):
`pack := packet{}; json.Unmarshal(m.Data, &pack)` with the error ignored —
on malformed bytes the packet keeps its zero value. -/
def addCallbackPacket (m : Msg) : Packet :=
  match jsonUnmarshal m.data with
  | Except.ok q => q
  | Except.error _ => zeroPacket

/-- The reply packet built by the reply callback (lines 122-136): a fresh
`packet` whose `Pattern` is the pattern `p` given to `Add`, whose
`Request.ID` is a freshly generated id (`nuid.Next()` at counter `g`), and
whose `Error`/`Result` is the comma-ok discrimination
`he, ok := payload.(Error)`: the `Error` field is set only when the
payload's dynamic type is exactly `Error`; every other payload (including
`*Error` and shape-alike maps) goes to `Result`. -/
def buildReply (p : Pattern) (g : Nat) (payload : Payload) : Packet :=
  let response : Packet :=
    { pattern := p, meta := [], delegate := [], result := none,
      trace := zeroTrace,
      request := { id := nuidNext g, requestType := RequestType },
      error := none }
  match payload with
  | Payload.errVal he => { response with error := some he }
  | _ => { response with result := some payload }

/-- The encode-and-send tail of the reply callback (lines 138-140):
`h.Conn.Publish(m.Reply, data)` — the published subject/bytes pair. -/
def replyPublish (p : Pattern) (g : Nat) (m : Msg) (payload : Payload) :
    String × Bytes :=
  (m.reply, jsonMarshal (buildReply p g payload))

/-- The publications produced by a sequence of reply-callback invocations:
each invocation calls `nuid.Next()`, advancing the counter. -/
def publishReplies (p : Pattern) (g : Nat) (m : Msg) :
    List Payload → List (String × Bytes)
  | [] => []
  | payload :: rest =>
    replyPublish p g m payload :: publishReplies p (g + 1) m rest

/-- The whole subscription callback (lines 117-142) for one delivered
message: decodes leniently, then invokes `handler(pack.Pattern, replyFn)`.
The user handler is abstracted by the payloads it passes to `replyFn`
(`handlerScript`, a function of the pattern it receives).  The result
records the pattern argument the handler was invoked with, and the
publications emitted; the callback has no error channel at all. -/
def addOnMessage (p : Pattern) (g : Nat)
    (handlerScript : Pattern → List Payload) (m : Msg) :
    Pattern × List (String × Bytes) :=
  ((addCallbackPacket m).pattern,
    publishReplies p g m (handlerScript (addCallbackPacket m).pattern))

/-- The argument `Act` passes to the caller's handler: `pack.Error` (a
`*Error`) or `pack.Result` (an `interface{}`), distinguished dynamic
types. -/
inductive ClientResult where
  | fromError (e : Error)
  | fromResult (r : Option Payload)

/-- Result of an `Act` call: either `log.Fatal` terminated the process, or
a normal return of `(ok, err)`; `handlerCalls` lists the invocations of the
caller-supplied handler, in order. -/
inductive ActOutcome where
  | fatal (logMsg : String)
  | ret (ok : Bool) (err : Option GoErr) (handlerCalls : List ClientResult)

/-- Discriminator: did `Act` return (as opposed to killing the process)? -/
def ActOutcome.isRet : ActOutcome → Bool
  | ActOutcome.ret _ _ _ => true
  | ActOutcome.fatal _ => false

/-- The request packet built by `Act` (src/hemera.go lines 157-163): the
caller's pattern and a fresh `request` header with a newly generated id. -/
def actRequestPacket (g : Nat) (p : Pattern) : Packet :=
  { pattern := p, meta := [], delegate := [], result := none,
    trace := zeroTrace,
    request := { id := nuidNext g, requestType := RequestType },
    error := none }

/-- The duration `Act` hands to `Conn.Request` (line 166):
`h.Opts.Timeout * time.Millisecond`. -/
def actEffectiveTimeout (opts : Options) : Int :=
  opts.timeout * timeMillisecond

/-- The tail of `Act` after the transport call (src/hemera.go lines
168-187).  On a transport error: `log.Fatal("Act could not be executed")`
(line 169; the `return false, err` on line 170 is unreachable).  On an
unmarshal error: `log.Fatal("Act response could not be unmarshalled")`
(line 177; the `return false, err` on line 178 — note: `err`, the nil
transport error, not `mErr` — is unreachable).  Otherwise the handler is
invoked once, with `pack.Error` when non-nil and with `pack.Result`
otherwise, and `Act` returns `(true, nil)`. -/
def actHandleResponse (res : Except NatsErr Msg) : ActOutcome :=
  match res with
  | Except.error _ => ActOutcome.fatal "Act could not be executed"
  | Except.ok m =>
    match jsonUnmarshal m.data with
    | Except.error _ =>
      ActOutcome.fatal "Act response could not be unmarshalled"
    | Except.ok pack =>
      match pack.error with
      | some e => ActOutcome.ret true none [ClientResult.fromError e]
      | none => ActOutcome.ret true none [ClientResult.fromResult pack.result]

/-- `Hemera.Act` (src/hemera.go lines 148-188): the topic assertion, then
`log.Fatal` on failure (line 153; the `return false, ErrActTopicRequired`
on line 154 is unreachable), else the request packet is built, marshalled
and sent via `Conn.Request` with timeout `Opts.Timeout * time.Millisecond`,
and the response is handled by `actHandleResponse`. -/
def Act (opts : Options) (g : Nat) (transport : Transport) (p : Pattern) :
    ActOutcome :=
  match topicOf p with
  | none => ActOutcome.fatal "Topic is required in Act call"
  | some topic =>
    actHandleResponse
      (transport topic (jsonMarshal (actRequestPacket g p))
        (actEffectiveTimeout opts))

/-- A JSON object with exactly the `name`/`message`/`code` shape of an
`Error`, but with dynamic type `map[string]interface{}`. -/
def errShapeObj (e : Error) : JVal :=
  JVal.obj [("name", JVal.str e.name), ("message", JVal.str e.message),
            ("code", JVal.num e.code)]

/-- Concrete pattern with a string topic, for counterexamples. -/
def mathPattern : Pattern := [("topic", JVal.str "math")]

/-- Concrete message whose bytes are malformed, for the decode failure
scenario of `Act`. -/
def c8Msg : Msg :=
  { subject := "math", reply := "inbox.1", data := Bytes.malformed "garbage" }

/-- Concrete transport whose reply bytes are malformed, for the decode
failure scenario. -/
def c8Transport : Transport := fun _ _ _ => Except.ok c8Msg

/-- Concrete error payload for the error-discrimination scenario. -/
def errE : Error := { name := "E", message := "m", code := 1 }

/-- Concrete reply envelope carrying a populated error. -/
def errPacket : Packet := { zeroPacket with error := some errE }

/-- Concrete reply message encoding `errPacket`. -/
def c3Msg : Msg :=
  { subject := "math", reply := "inbox.1", data := Bytes.enc errPacket }

/-- Concrete transport replying with `c3Msg`. -/
def c3Transport : Transport := fun _ _ _ => Except.ok c3Msg

/-- Concrete transport that always times out (no responder). -/
def timeoutTransport : Transport := fun _ _ _ => Except.error NatsErr.timeout

/-- Concrete inbound envelope with correlation id abc. -/
def c5Packet : Packet :=
  { zeroPacket with request := { id := "abc", requestType := "request" } }

/-- Concrete inbound message encoding `c5Packet`. -/
def c5Msg : Msg :=
  { subject := "math", reply := "inbox.1", data := Bytes.enc c5Packet }

/-- Concrete inbound message with malformed bytes, for the lenient decode
scenario of the responder. -/
def c6Msg : Msg :=
  { subject := "math", reply := "inbox.2", data := Bytes.malformed "oops" }

end GoHemera

namespace GoHemera

/-- Claim C1: on a Pattern without a string topic key, the code does not
return `(false, TopicRequiredError)` to the caller: both `Add` and `Act`
hit `log.Fatal` and the process terminates before their error-return
statements.  The parts of the claim that do hold: no transport I/O happens
(no subscription is registered — the fatal outcome carries none — and `Act`
never consults the transport: its outcome is the same for every transport
function). -/
theorem C1_missingTopic_isFatal (p : Pattern) (h : topicOf p = none)
    (opts : Options) (g : Nat) (transport transport2 : Transport) :
    Add p = AddOutcome.fatal "Topic is required in Add definition" ∧
    Act opts g transport p = ActOutcome.fatal "Topic is required in Act call" ∧
    Act opts g transport p = Act opts g transport2 p := by
  unfold Add Act
  rw [h]
  exact ⟨rfl, rfl, rfl⟩

/-- Witness for C1 at the concrete input of the claim: the empty pattern. -/
theorem C1_missingTopic_isFatal_witness :
    topicOf ([] : Pattern) = none ∧
    Add [] = AddOutcome.fatal "Topic is required in Add definition" ∧
    Act GetDefaultOptions 0 timeoutTransport [] =
      ActOutcome.fatal "Topic is required in Act call" :=
  ⟨rfl,
   (C1_missingTopic_isFatal [] rfl GetDefaultOptions 0
      timeoutTransport timeoutTransport).1,
   (C1_missingTopic_isFatal [] rfl GetDefaultOptions 0
      timeoutTransport timeoutTransport).2.1⟩

/-- Claim C2: when the transport request yields no reply within the timeout
(`Conn.Request` returns the timeout error), `Act` does not report the error
through its `(ok, error)` return: it hits
`log.Fatal("Act could not be executed")` and the process terminates.  The
caller-supplied handler is indeed never invoked (the fatal outcome carries
no handler calls). -/
theorem C2_timeout_isFatal (opts : Options) (g : Nat) (transport : Transport)
    (p : Pattern) (topic : String) (h : topicOf p = some topic)
    (ht : transport topic (jsonMarshal (actRequestPacket g p))
        (actEffectiveTimeout opts) = Except.error NatsErr.timeout) :
    Act opts g transport p = ActOutcome.fatal "Act could not be executed" := by
  simp only [Act, h, ht, actHandleResponse]

/-- Witness for C2: an `Act` on topic nobody.home against a transport that
times out. -/
theorem C2_timeout_isFatal_witness :
    topicOf [("topic", JVal.str "nobody.home")] = some "nobody.home" ∧
    Act GetDefaultOptions 0 timeoutTransport
      [("topic", JVal.str "nobody.home")] =
      ActOutcome.fatal "Act could not be executed" :=
  ⟨rfl,
   C2_timeout_isFatal GetDefaultOptions 0 timeoutTransport
     [("topic", JVal.str "nobody.home")] "nobody.home" rfl rfl⟩

/-- Claim C3: for every successfully decoded reply envelope, `Act` invokes
the caller's handler exactly once — with the envelope's error when the
error field is non-nil, otherwise with the envelope's result — and returns
`(true, nil)`: a populated envelope error is never delivered through the
`(ok, error)` return pair. -/
theorem C3_replyDispatch (opts : Options) (g : Nat) (transport : Transport)
    (p : Pattern) (topic : String) (m : Msg) (pack : Packet)
    (h : topicOf p = some topic)
    (ht : transport topic (jsonMarshal (actRequestPacket g p))
        (actEffectiveTimeout opts) = Except.ok m)
    (hd : jsonUnmarshal m.data = Except.ok pack) :
    Act opts g transport p =
      ActOutcome.ret true none
        [match pack.error with
         | some e => ClientResult.fromError e
         | none => ClientResult.fromResult pack.result] := by
  simp only [Act, h, ht, actHandleResponse, hd]
  cases hpe : pack.error <;> rfl

/-- Witness for C3: a transport replying with an envelope carrying a
populated error; the handler receives that error and `Act` returns
`(true, nil)`. -/
theorem C3_replyDispatch_witness :
    (topicOf mathPattern = some "math" ∧
      jsonUnmarshal c3Msg.data = Except.ok errPacket) ∧
    Act GetDefaultOptions 0 c3Transport mathPattern =
      ActOutcome.ret true none [ClientResult.fromError errE] :=
  ⟨⟨rfl, rfl⟩,
   C3_replyDispatch GetDefaultOptions 0 c3Transport mathPattern "math"
     c3Msg errPacket rfl rfl rfl⟩

/-- Claim C4: for every payload given to the reply callback, the reply
envelope has at most one of result/error populated: an `Error`-typed
payload sets `error` and leaves `result` nil, every other payload sets
`result` and leaves `error` nil; no reply envelope is built with both
fields populated. -/
theorem C4_replyExclusive (p : Pattern) (g : Nat) (payload : Payload) :
    (match payload with
     | Payload.errVal e =>
         (buildReply p g payload).error = some e ∧
         (buildReply p g payload).result = none
     | _ =>
         (buildReply p g payload).result = some payload ∧
         (buildReply p g payload).error = none) ∧
    ((buildReply p g payload).error.isSome &&
      (buildReply p g payload).result.isSome) = false := by
  cases payload <;> exact ⟨⟨rfl, rfl⟩, rfl⟩

/-- Claim C5: the reply callback builds a fresh reply envelope whose
`request.id` is the newly generated id (`nuid.Next()` at the current
counter), not a copy of the inbound envelope's `request.id`, whose pattern
field carries the pattern given to `Add`, and publishes it to the reply
address attached to the inbound message. -/
theorem C5_replyFreshId (p : Pattern) (g : Nat) (m : Msg) (payload : Payload)
    (h : (addCallbackPacket m).request.id ≠ nuidNext g) :
    (replyPublish p g m payload).1 = m.reply ∧
    (buildReply p g payload).request.id = nuidNext g ∧
    (buildReply p g payload).request.id ≠ (addCallbackPacket m).request.id ∧
    (buildReply p g payload).pattern = p := by
  have hid : (buildReply p g payload).request.id = nuidNext g := by
    cases payload <;> rfl
  have hpat : (buildReply p g payload).pattern = p := by
    cases payload <;> rfl
  exact ⟨rfl, hid, fun hc => h ((hid ▸ hc).symm), hpat⟩

/-- Witness for C5: an inbound envelope whose correlation id abc differs
from the freshly generated nuid-0. -/
theorem C5_replyFreshId_witness :
    (addCallbackPacket c5Msg).request.id ≠ nuidNext 0 ∧
    (replyPublish mathPattern 0 c5Msg (Payload.val (JVal.num 7))).1 =
      "inbox.1" ∧
    (buildReply mathPattern 0 (Payload.val (JVal.num 7))).request.id =
      nuidNext 0 ∧
    (buildReply mathPattern 0 (Payload.val (JVal.num 7))).request.id ≠
      (addCallbackPacket c5Msg).request.id ∧
    (buildReply mathPattern 0 (Payload.val (JVal.num 7))).pattern =
      mathPattern := by
  have h : (addCallbackPacket c5Msg).request.id ≠ nuidNext 0 := by decide
  have main := C5_replyFreshId mathPattern 0 c5Msg
    (Payload.val (JVal.num 7)) h
  exact ⟨h, main.1, main.2.1, main.2.2.1, main.2.2.2⟩

/-- Claim C6: on the responder, inbound bytes that fail to decode are
handled leniently: the packet keeps its zero value, the registered handler
is still invoked — with the empty pattern — and the callback behaves
exactly as it would on a well-formed encoding of the zero packet; no
decode failure is surfaced (the callback has no error channel). -/
theorem C6_lenientDecode (p : Pattern) (g : Nat)
    (handlerScript : Pattern → List Payload) (m : Msg) (s : String)
    (h : jsonUnmarshal m.data = Except.error s) :
    addCallbackPacket m = zeroPacket ∧
    addOnMessage p g handlerScript m =
      ([], publishReplies p g m (handlerScript [])) ∧
    addOnMessage p g handlerScript m =
      addOnMessage p g handlerScript
        { subject := m.subject, reply := m.reply,
          data := jsonMarshal zeroPacket } := by
  have hz : addCallbackPacket m = zeroPacket := by
    unfold addCallbackPacket
    rw [h]
  have hre : ∀ (g2 : Nat) (pays : List Payload), publishReplies p g2 m pays =
      publishReplies p g2
        { subject := m.subject, reply := m.reply,
          data := jsonMarshal zeroPacket } pays := by
    intro g2 pays
    induction pays generalizing g2 with
    | nil => rfl
    | cons a rest ih =>
      show replyPublish p g2 m a :: publishReplies p (g2 + 1) m rest = _
      rw [ih]
      rfl
  refine ⟨hz, ?_, ?_⟩
  · unfold addOnMessage
    rw [hz]
    rfl
  · unfold addOnMessage
    rw [hz]
    have hz2 : addCallbackPacket
        { subject := m.subject, reply := m.reply,
          data := jsonMarshal zeroPacket } = zeroPacket := rfl
    rw [hz2, hre]

/-- Witness for C6: malformed bytes; the handler runs on the empty pattern
and its reply is still published to the inbound reply address. -/
theorem C6_lenientDecode_witness :
    jsonUnmarshal c6Msg.data = Except.error "oops" ∧
    addOnMessage mathPattern 0 (fun _ => [Payload.val JVal.null]) c6Msg =
      ([], publishReplies mathPattern 0 c6Msg [Payload.val JVal.null]) :=
  ⟨rfl,
   (C6_lenientDecode mathPattern 0 (fun _ => [Payload.val JVal.null])
     c6Msg "oops" rfl).2.1⟩

/-- Claim C7: a `Hemera` constructed with no options has timeout 2000, the
effective wait of every `Act` call is that value times `time.Millisecond`
(2000 ms for the default), and the `Timeout` option applied at construction
replaces the default with the caller's value. -/
theorem C7_defaultTimeout (t : Int) (conn : NatsConn) (opts : Options)
    (g : Nat) (transport : Transport) (p : Pattern) (topic : String)
    (h : topicOf p = some topic) :
    GetDefaultOptions.timeout = 2000 ∧
    (NewHemera conn []).1.opts = GetDefaultOptions ∧
    actEffectiveTimeout (NewHemera conn []).1.opts = 2000 * timeMillisecond ∧
    (NewHemera conn [Timeout t]).1.opts.timeout = t ∧
    Act opts g transport p =
      actHandleResponse
        (transport topic (jsonMarshal (actRequestPacket g p))
          (actEffectiveTimeout opts)) := by
  refine ⟨rfl, rfl, rfl, rfl, ?_⟩
  unfold Act
  rw [h]

/-- Witness for C7 on the concrete default-constructed instance and a
concrete topic pattern. -/
theorem C7_defaultTimeout_witness :
    topicOf mathPattern = some "math" ∧
    (NewHemera { handle := 0 } []).1.opts.timeout = 2000 ∧
    (NewHemera { handle := 0 } [Timeout 5000]).1.opts.timeout = 5000 ∧
    Act GetDefaultOptions 0 c8Transport mathPattern =
      actHandleResponse
        (c8Transport "math" (jsonMarshal (actRequestPacket 0 mathPattern))
          (actEffectiveTimeout GetDefaultOptions)) :=
  ⟨rfl, rfl, rfl,
   (C7_defaultTimeout 5000 { handle := 0 } GetDefaultOptions 0 c8Transport
     mathPattern "math" rfl).2.2.2.2⟩

/-- Claim C8 counterexample: at a concrete input where the transport
request succeeds and the reply bytes fail to unmarshal, `Act` does not
return at all — in particular it does not return `(false, nil)` — because
`log.Fatal("Act response could not be unmarshalled")` terminates the
process before the (dead) return statement. -/
theorem C8_decodeFailure_counterexample :
    Act GetDefaultOptions 0 c8Transport mathPattern =
      ActOutcome.fatal "Act response could not be unmarshalled" ∧
    (Act GetDefaultOptions 0 c8Transport mathPattern).isRet = false :=
  ⟨rfl, rfl⟩

/-- Claim C8 (amended): for every `Act` call in which the transport request
succeeds but the reply bytes fail to unmarshal, `Act` hits
`log.Fatal("Act response could not be unmarshalled")` and the process
terminates; no `(ok, error)` pair — in particular not the nil transport
error named by the unreachable `return false, err` — reaches the caller,
and the handler is never invoked. -/
theorem C8_decodeFailure_isFatal (opts : Options) (g : Nat)
    (transport : Transport) (p : Pattern) (topic : String) (m : Msg)
    (s : String) (h : topicOf p = some topic)
    (ht : transport topic (jsonMarshal (actRequestPacket g p))
        (actEffectiveTimeout opts) = Except.ok m)
    (hd : jsonUnmarshal m.data = Except.error s) :
    Act opts g transport p =
      ActOutcome.fatal "Act response could not be unmarshalled" := by
  simp only [Act, h, ht, actHandleResponse, hd]

/-- Witness for the amended C8 at the same concrete transport. -/
theorem C8_decodeFailure_isFatal_witness :
    (topicOf mathPattern = some "math" ∧
      jsonUnmarshal c8Msg.data = Except.error "garbage") ∧
    Act GetDefaultOptions 0 c8Transport mathPattern =
      ActOutcome.fatal "Act response could not be unmarshalled" :=
  ⟨⟨rfl, rfl⟩,
   C8_decodeFailure_isFatal GetDefaultOptions 0 c8Transport mathPattern "math"
     c8Msg "garbage" rfl rfl rfl⟩

/-- Claim C9: `Act` multiplies the configured `Opts.Timeout` by
`time.Millisecond` before passing it to the transport, so the effective
wait is the option value times 10^6 nanoseconds; a caller who stores an
actual `time.Duration` of 2 seconds gets 2 * 10^15 ns instead of the
intended 2 * 10^9 ns. -/
theorem C9_timeoutUnit (opts : Options) (g : Nat) (transport : Transport)
    (p : Pattern) (topic : String) (h : topicOf p = some topic) :
    actEffectiveTimeout opts = opts.timeout * 1000000 ∧
    Act opts g transport p =
      actHandleResponse
        (transport topic (jsonMarshal (actRequestPacket g p))
          (opts.timeout * 1000000)) ∧
    actEffectiveTimeout { timeout := 2 * timeSecond } = 2000000000000000 ∧
    actEffectiveTimeout { timeout := 2 * timeSecond } =
      1000000 * (2 * timeSecond) := by
  refine ⟨rfl, ?_, by decide, by decide⟩
  unfold Act
  rw [h]
  rfl

/-- Witness for C9 at the default options and a concrete topic pattern. -/
theorem C9_timeoutUnit_witness :
    topicOf mathPattern = some "math" ∧
    actEffectiveTimeout GetDefaultOptions = 2000 * 1000000 ∧
    Act GetDefaultOptions 0 c8Transport mathPattern =
      actHandleResponse
        (c8Transport "math" (jsonMarshal (actRequestPacket 0 mathPattern))
          (GetDefaultOptions.timeout * 1000000)) :=
  ⟨rfl,
   (C9_timeoutUnit GetDefaultOptions 0 c8Transport mathPattern "math" rfl).1,
   (C9_timeoutUnit GetDefaultOptions 0 c8Transport mathPattern "math" rfl).2.1⟩

/-- Claim C10: the reply callback discriminates by exact dynamic type: only
a payload whose dynamic type is the `Error` struct value is placed in the
envelope's error field; a pointer to `Error`, or a map with the same
name/message/code shape, is treated as an opaque success payload and placed
in result. -/
theorem C10_discriminationByType (p : Pattern) (g : Nat) (e : Error)
    (v : JVal) :
    (buildReply p g (Payload.errVal e)).error = some e ∧
    (buildReply p g (Payload.errVal e)).result = none ∧
    (buildReply p g (Payload.errPtr e)).result = some (Payload.errPtr e) ∧
    (buildReply p g (Payload.errPtr e)).error = none ∧
    (buildReply p g (Payload.val (errShapeObj e))).result =
      some (Payload.val (errShapeObj e)) ∧
    (buildReply p g (Payload.val (errShapeObj e))).error = none ∧
    (buildReply p g (Payload.val v)).result = some (Payload.val v) ∧
    (buildReply p g (Payload.val v)).error = none :=
  ⟨rfl, rfl, rfl, rfl, rfl, rfl, rfl, rfl⟩

end GoHemera
